import Mathlib

/-!
Verification of the rust-lox tree-walking interpreter.

This file shallowly embeds the parts of the source relevant to the frozen
claims: the token and AST data model, the environment chain
(src/environment.rs), the evaluator (src/interpreter.rs, src/function.rs)
and the recursive-descent parser (src/parser.rs).

Conventions of the embedding:
* Rust `f64` number payloads are carried as `Int`; no claim under
  verification depends on floating-point arithmetic or formatting.
* Rust panics (`unwrap` on `None`, `panic!()`, `unimplemented!()`, usize
  underflow) are modelled explicitly: the interpreter returns `none` and the
  parser returns the distinguished outcome `PRes.crash`.  Fuel exhaustion of
  the step functions is `none` at the outer `Option` layer of the parser and
  is therefore distinguishable from a crash.
* Shared, mutable environment frames (`Rc<RefCell<Environment>>`) are
  modelled as an arena (a list of frames addressed by index), the strategy
  the specification itself recommends for closures (spec section 9).
-/

namespace Lox

/-- Modelled from the spec: `src/token.rs` is not present under `src/`.
Per spec section 3, a token is `{kind, lexeme, line}`; the `TokenType`
variants are exactly those consumed in `src/parser.rs` and produced in
`src/scanner.rs`. -/
inductive TokenType where
  | LeftParen | RightParen | LeftBrace | RightBrace
  | Comma | Dot | Minus | Plus | Semicolon | Star | Slash
  | Bang | BangEqual | Equal | EqualEqual
  | Less | LessEqual | Greater | GreaterEqual
  | String : String → TokenType
  | Number : Int → TokenType
  | Identifier : String → TokenType
  | And | Class | Else | False | Fun | For | If | Nil | Or
  | Print | Return | Super | This | True | Var | While
  | EOF
deriving DecidableEq

/-- Modelled from the spec: the token record of spec section 3. -/
structure Token where
  token_type : TokenType
  lexeme : String
  line : Nat
deriving DecidableEq

mutual

/-- Runtime values, from `src/literal.rs` (`enum Literal`). -/
inductive Literal where
  | Function : Function → Literal
  | String : String → Literal
  | Number : Int → Literal
  | Boolean : Bool → Literal
  | Nil : Literal

/-- Callables, from `src/function.rs` (`enum Function`).  A native body is a
host-supplied Rust `fn` pointer; it is carried as an abstract handle.  A Lox
closure's `Rc<RefCell<Environment>>` is carried as an arena index. -/
inductive Function where
  | Native : Nat → Nat → Function
  | Lox : Nat → List Token → List Stmt → Nat → Function

/-- Expressions, from `src/expr.rs` (`enum Expr`). -/
inductive Expr where
  | Assign : Token → Expr → Expr
  | Binary : Expr → Token → Expr → Expr
  | Call : Expr → Token → List Expr → Expr
  | Grouping : Expr → Expr
  | Literal : Literal → Expr
  | Logical : Expr → Token → Expr → Expr
  | Unary : Token → Expr → Expr
  | Var : Token → Expr

/-- Statements, as constructed by `src/parser.rs` (`Stmt::Function` and
`Stmt::Return` are built by the parser; the checked-in `src/stmt.rs` is a
stale snapshot without them). -/
inductive Stmt where
  | Print : Expr → Stmt
  | Expression : Expr → Stmt
  | Var : Token → Option Expr → Stmt
  | Block : List Stmt → Stmt
  | If : Expr → Stmt → Option Stmt → Stmt
  | While : Expr → Stmt → Stmt
  | Function : Token → List Token → List Stmt → Stmt
  | Return : Token → Option Expr → Stmt

end

/-- Truthiness, from `src/literal.rs` (`Literal::is_truthy`). -/
def Literal.is_truthy : Literal → Bool
  | .Nil => false
  | .Boolean false => false
  | _ => true

/-- Structural value equality, from `src/literal.rs` (`impl PartialEq`):
functions are never equal to anything. -/
def litEq : Literal → Literal → Bool
  | .String a, .String b => a = b
  | .Number a, .Number b => a = b
  | .Boolean a, .Boolean b => a = b
  | .Nil, .Nil => true
  | _, _ => false

/-- Runtime error details, from `src/errors.rs` (`enum DetailedErrorType`). -/
inductive DetailedErrorType where
  | ExpectedNumber | UndeclaredIdentifier | InvalidArity | NotCallable
deriving DecidableEq

/-- Error kinds, from `src/errors.rs` (`enum LoxErrorType`). -/
inductive LoxErrorType where
  | SyntaxError : String → LoxErrorType
  | RuntimeError : DetailedErrorType → LoxErrorType
  | Return : Literal → LoxErrorType

/-- Diagnostics, from `src/errors.rs` (`struct LoxError`). -/
structure LoxError where
  token : Token
  kind : LoxErrorType
  line : Nat

/-- `LoxError::new`, from `src/errors.rs`.  (`src/interpreter.rs` passes the
runtime detail as a separate argument; the kind it builds is the same
`RuntimeError(detail)`.) -/
def LoxError.new (token : Token) (kind : LoxErrorType) : LoxError :=
  { line := token.line, kind := kind, token := token }

/-- `LoxError::parse_error`, from `src/errors.rs`. -/
def LoxError.parse_error (token : Token) (msg : String) : LoxError :=
  { line := token.line, kind := LoxErrorType.SyntaxError msg, token := token }

/-- Association-list reading of `HashMap::get` over a frame's bindings. -/
def mapGet : List (String × Literal) → String → Option Literal
  | [], _ => none
  | (k, v) :: rest, name => if k = name then some v else mapGet rest name

/-- Association-list reading of `HashMap::insert` (overwrite or append). -/
def mapInsert : List (String × Literal) → String → Literal → List (String × Literal)
  | [], name, v => [(name, v)]
  | (k, w) :: rest, name, v =>
      if k = name then (name, v) :: rest else (k, w) :: mapInsert rest name v

/-- The environment chain of `src/environment.rs`: a frame of bindings and an
optional enclosing frame. -/
inductive Env where
  | mk : List (String × Literal) → Option Env → Env

/-- Bindings of the innermost frame. -/
def Env.values : Env → List (String × Literal)
  | .mk vs _ => vs

/-- The enclosing frame, when any. -/
def Env.enclosing : Env → Option Env
  | .mk _ e => e

/-- `Environment::get`, from `src/environment.rs`: reads the own frame only. -/
def Env.get (env : Env) (name : String) : Option Literal :=
  mapGet env.values name

/-- `Environment::fetch`, from `src/environment.rs`: consults the own frame,
else calls the non-recursive `get` on the enclosing frame. -/
def Env.fetch : Env → String → Option Literal
  | .mk values enclosing, name =>
    match mapGet values name with
    | none =>
      match enclosing with
      | none => none
      | some env => env.get name
    | some v => some v

/-- `Environment::assign`, from `src/environment.rs`: overwrite in the own
frame when bound there, else recurse into the enclosing frame; mutation is
modelled by returning the updated chain next to the found flag. -/
def Env.assign : Env → String → Literal → Bool × Env
  | .mk values enclosing, name, value =>
    match mapGet values name with
    | some _ => (true, .mk (mapInsert values name value) enclosing)
    | none =>
      match enclosing with
      | none => (false, .mk values none)
      | some env =>
        let r := env.assign name value
        (r.1, .mk values (some r.2))

/-- `Environment::define`, from `src/environment.rs`: insert into the
innermost frame. -/
def Env.define (env : Env) (name : String) (value : Literal) : Env :=
  .mk (mapInsert env.values name value) env.enclosing

/-! ## The evaluator (src/interpreter.rs, src/function.rs)

`Rc<RefCell<Environment>>` frames are modelled as an arena of frames
addressed by index; the interpreter state carries the arena together with
the `globals` and current `environment` indices.  A `Print` effect is
recorded as the printed value. -/

/-- One shared environment frame: bindings plus the index of the enclosing
frame, mirroring `Environment`'s `values`/`enclosing`. -/
structure Frame where
  values : List (String × Literal)
  enclosing : Option Nat

/-- The `Interpreter` struct of `src/interpreter.rs`, plus the arena holding
every frame ever allocated and the list of printed values. -/
structure InterpState where
  arena : List Frame
  globals : Nat
  environment : Nat
  output : List Literal

/-- Frame lookup in the arena. -/
def arenaGet (a : List Frame) (id : Nat) : Option Frame :=
  a.get? id

/-- Replace the frame at `id`. -/
def arenaSet : List Frame → Nat → Frame → List Frame
  | [], _, _ => []
  | _ :: rest, 0, f => f :: rest
  | g :: rest, n + 1, f => g :: arenaSet rest n f

/-- `Environment::fetch` as the evaluator calls it (`src/environment.rs`,
lines 47-60): the own frame, else the enclosing frame's own map via the
non-recursive `get` — frames further out are not consulted. -/
def storeFetch (a : List Frame) (id : Nat) (name : String) : Option Literal :=
  match arenaGet a id with
  | none => none
  | some f =>
    match mapGet f.values name with
    | some v => some v
    | none =>
      match f.enclosing with
      | none => none
      | some pid =>
        match arenaGet a pid with
        | none => none
        | some pf => mapGet pf.values name

/-- `Environment::assign` over the arena (`src/environment.rs`, lines
24-36): overwrite the nearest frame already containing the name, walking the
chain outward; `none` models a chain longer than the fuel (unreachable for
arena-allocated chains given fuel `a.length + 1`). -/
def storeAssign : Nat → List Frame → Nat → String → Literal → Option (Bool × List Frame)
  | 0, _, _, _, _ => none
  | fuel + 1, a, id, name, value =>
    match arenaGet a id with
    | none => none
    | some f =>
      match mapGet f.values name with
      | some _ => some (true, arenaSet a id { f with values := mapInsert f.values name value })
      | none =>
        match f.enclosing with
        | none => some (false, a)
        | some pid => storeAssign fuel a pid name value

/-- `Environment::define` over the arena: insert into the frame at `id`. -/
def storeDefine (a : List Frame) (id : Nat) (name : String) (value : Literal) : Option (List Frame) :=
  match arenaGet a id with
  | none => none
  | some f => some (arenaSet a id { f with values := mapInsert f.values name value })

/-- `evaluate_arithmetic`, from `src/interpreter.rs` (lines 19-35); the
catch-all `panic!()` on a non-arithmetic operator token is `none`. -/
def evaluate_arithmetic (operator : Token) (l r : Literal) : Option (Except LoxError Literal) :=
  match l, r with
  | .Number a, .Number b =>
    match operator.token_type with
    | .Plus => some (.ok (.Number (a + b)))
    | .Minus => some (.ok (.Number (a - b)))
    | .Slash => some (.ok (.Number (a / b)))
    | .Star => some (.ok (.Number (a * b)))
    | _ => none
  | _, _ => some (.error (LoxError.new operator (.RuntimeError .ExpectedNumber)))

/-- `evaluate_comparison`, from `src/interpreter.rs` (lines 37-53). -/
def evaluate_comparison (operator : Token) (l r : Literal) : Option (Except LoxError Literal) :=
  match l, r with
  | .Number a, .Number b =>
    match operator.token_type with
    | .Less => some (.ok (.Boolean (decide (a < b))))
    | .LessEqual => some (.ok (.Boolean (decide (a ≤ b))))
    | .Greater => some (.ok (.Boolean (decide (b < a))))
    | .GreaterEqual => some (.ok (.Boolean (decide (b ≤ a))))
    | _ => none
  | _, _ => some (.error (LoxError.new operator (.RuntimeError .ExpectedNumber)))

/-- Modelled from the spec: native bodies are host-supplied `fn` pointers
(the only shipped native, `clock`, returns wall-clock time, which has no
pure model); the handle's application is fixed to an arbitrary Number. -/
def nativeResult (_bodyId : Nat) (_args : List Literal) : Literal :=
  Literal.Number 0

/-- Parameter binding of `Function::call` (`src/function.rs`, lines 47-53):
define each parameter to the argument at its index; `arguments.get(i).unwrap()`
on a missing argument is a panic, hence `none`. -/
def bindParams : List Token → List Literal → List (String × Literal) → Option (List (String × Literal))
  | [], _, acc => some acc
  | _ :: _, [], _ => none
  | p :: ps, a :: rest, acc => bindParams ps rest (mapInsert acc p.lexeme a)

/-- `Function::arity`, from `src/function.rs`. -/
def Function.arity : Function → Nat
  | .Native a _ => a
  | .Lox a _ _ _ => a

/-- The evaluator's mutually recursive entry points, merged into one
fuel-indexed step function so that every run is kernel-computable:
`.expr`/`.stmt` are `Interpreter::evaluate`/`Interpreter::execute`,
`.stmts` is the statement loop shared by the `Stmt::Block` case and
`execute_block`, `.callArgs` is the argument loop of `evaluate_call`, and
`.callFn` is `Function::call`. -/
inductive Code where
  | expr : Expr → Code
  | stmt : Stmt → Code
  | stmts : List Stmt → Code
  | callArgs : Literal → Token → List Expr → List Literal → Code
  | callFn : Function → List Literal → Token → Code

/-- One fuel-indexed evaluator covering `Interpreter::evaluate`,
`Interpreter::execute` and `Function::call`.  `none` is a Rust panic
(`unimplemented!()` in `define_function`, `panic!()` in the operator
catch-alls, `unwrap` failures) or fuel exhaustion.

The `Stmt.Return` case and the `execute_block` called by `Function::call`
are modelled from the spec (sections 4.3 and 7): `src/function.rs` calls
`interpreter.execute_block`, but `src/interpreter.rs` as checked in neither
defines `execute_block` nor executes `Stmt::Return`; per the spec, `return`
evaluates its optional value (default Nil) and propagates it through the
error channel as the `Return` kind, and a block body executes against the
given fresh environment with the previous current-environment pointer
restored on both success and error exit. -/
def run : Nat → InterpState → Code → Option (InterpState × Except LoxError Literal)
  | 0, _, _ => none
  | n + 1, s, c =>
    match c with
    | .expr (Expr.Literal v) => some (s, .ok v)
    | .expr (Expr.Grouping e) => run n s (.expr e)
    | .expr (Expr.Unary operator right) =>
      match run n s (.expr right) with
      | none => none
      | some (s1, .error e) => some (s1, .error e)
      | some (s1, .ok r) =>
        match operator.token_type with
        | .Minus =>
          match r with
          | .Number v => some (s1, .ok (.Number (-v)))
          | _ => some (s1, .error (LoxError.new operator (.RuntimeError .ExpectedNumber)))
        | .Bang => some (s1, .ok (.Boolean r.is_truthy))
        | _ => none
    | .expr (Expr.Binary left operator right) =>
      match run n s (.expr left) with
      | none => none
      | some (s1, .error e) => some (s1, .error e)
      | some (s1, .ok lv) =>
        match run n s1 (.expr right) with
        | none => none
        | some (s2, .error e) => some (s2, .error e)
        | some (s2, .ok rv) =>
          match operator.token_type with
          | .Plus =>
            match lv, rv with
            | .String a, .String b => some (s2, .ok (.String (a ++ b)))
            | _, _ =>
              match evaluate_arithmetic operator lv rv with
              | none => none
              | some r => some (s2, r)
          | .Minus | .Star | .Slash =>
            match evaluate_arithmetic operator lv rv with
            | none => none
            | some r => some (s2, r)
          | .Greater | .GreaterEqual | .Less | .LessEqual =>
            match evaluate_comparison operator lv rv with
            | none => none
            | some r => some (s2, r)
          | .EqualEqual => some (s2, .ok (.Boolean (litEq lv rv)))
          | .BangEqual => some (s2, .ok (.Boolean (!litEq lv rv)))
          | _ => none
    | .expr (Expr.Var identifier) =>
      match storeFetch s.arena s.environment identifier.lexeme with
      | some v => some (s, .ok v)
      | none => some (s, .error (LoxError.new identifier (.RuntimeError .UndeclaredIdentifier)))
    | .expr (Expr.Assign identifier e) =>
      match run n s (.expr e) with
      | none => none
      | some (s1, .error err) => some (s1, .error err)
      | some (s1, .ok v) =>
        match storeAssign (s1.arena.length + 1) s1.arena s1.environment identifier.lexeme v with
        | none => none
        | some (true, arena1) => some ({ s1 with arena := arena1 }, .ok v)
        | some (false, _) =>
          some (s1, .error (LoxError.new identifier (.RuntimeError .UndeclaredIdentifier)))
    | .expr (Expr.Logical left operator right) =>
      match run n s (.expr left) with
      | none => none
      | some (s1, .error e) => some (s1, .error e)
      | some (s1, .ok v) =>
        match operator.token_type with
        | .Or => if v.is_truthy then some (s1, .ok v) else run n s1 (.expr right)
        | _ => if !v.is_truthy then some (s1, .ok v) else run n s1 (.expr right)
    | .expr (Expr.Call callee paren arguments) =>
      match run n s (.expr callee) with
      | none => none
      | some (s1, .error e) => some (s1, .error e)
      | some (s1, .ok calleeV) => run n s1 (.callArgs calleeV paren arguments [])
    | .callArgs calleeV paren (e :: rest) acc =>
      match run n s (.expr e) with
      | none => none
      | some (s1, .error err) => some (s1, .error err)
      | some (s1, .ok v) => run n s1 (.callArgs calleeV paren rest (acc ++ [v]))
    | .callArgs calleeV paren [] args =>
      match calleeV with
      | .Function f =>
        if f.arity ≠ args.length then
          some (s, .error (LoxError.new paren (.RuntimeError .InvalidArity)))
        else
          run n s (.callFn f args paren)
      | _ => some (s, .error (LoxError.new paren (.RuntimeError .NotCallable)))
    | .callFn (Function.Native _ bodyId) args _ => some (s, .ok (nativeResult bodyId args))
    | .callFn (Function.Lox _ params body closureId) args _ =>
      match bindParams params args [] with
      | none => none
      | some vals =>
        match run n { s with arena := s.arena ++ [Frame.mk vals (some closureId)],
                             environment := s.arena.length } (.stmts body) with
        | none => none
        | some (s2, .ok v) => some ({ s2 with environment := s.environment }, .ok v)
        | some (s2, .error e) =>
          match e.kind with
          | .Return v => some ({ s2 with environment := s.environment }, .ok v)
          | .SyntaxError _ => some ({ s2 with environment := s.environment }, .error e)
          | .RuntimeError _ => some ({ s2 with environment := s.environment }, .error e)
    | .stmt (Stmt.Print e) =>
      match run n s (.expr e) with
      | none => none
      | some (s1, .error err) => some (s1, .error err)
      | some (s1, .ok v) => some ({ s1 with output := s1.output ++ [v] }, .ok .Nil)
    | .stmt (Stmt.Expression e) => run n s (.expr e)
    | .stmt (Stmt.If condition then_branch else_branch) =>
      match run n s (.expr condition) with
      | none => none
      | some (s1, .error err) => some (s1, .error err)
      | some (s1, .ok v) =>
        if v.is_truthy then run n s1 (.stmt then_branch)
        else
          match else_branch with
          | some els => run n s1 (.stmt els)
          | none => some (s1, .ok .Nil)
    | .stmt (Stmt.While condition body) =>
      match run n s (.expr condition) with
      | none => none
      | some (s1, .error err) => some (s1, .error err)
      | some (s1, .ok v) =>
        if v.is_truthy then
          match run n s1 (.stmt body) with
          | none => none
          | some (s2, .error err) => some (s2, .error err)
          | some (s2, .ok _) => run n s2 (.stmt (Stmt.While condition body))
        else some (s1, .ok .Nil)
    | .stmt (Stmt.Var identifier initializer) =>
      match initializer with
      | some e =>
        match run n s (.expr e) with
        | none => none
        | some (s1, .error err) => some (s1, .error err)
        | some (s1, .ok v) =>
          match storeDefine s1.arena s1.environment identifier.lexeme v with
          | none => none
          | some arena1 => some ({ s1 with arena := arena1 }, .ok .Nil)
      | none =>
        match storeDefine s.arena s.environment identifier.lexeme .Nil with
        | none => none
        | some arena1 => some ({ s with arena := arena1 }, .ok .Nil)
    | .stmt (Stmt.Function _ _ _) => none
    | .stmt (Stmt.Return keyword value) =>
      match value with
      | none => some (s, .error (LoxError.new keyword (.Return .Nil)))
      | some e =>
        match run n s (.expr e) with
        | none => none
        | some (s1, .error err) => some (s1, .error err)
        | some (s1, .ok v) => some (s1, .error (LoxError.new keyword (.Return v)))
    | .stmt (Stmt.Block statements) =>
      match run n { s with arena := s.arena ++ [Frame.mk [] (some s.environment)],
                           environment := s.arena.length } (.stmts statements) with
      | none => none
      | some (s2, .error e) => some ({ s2 with environment := s.environment }, .error e)
      | some (s2, .ok _) => some ({ s2 with environment := s.environment }, .ok .Nil)
    | .stmts [] => some (s, .ok .Nil)
    | .stmts (st :: rest) =>
      match run n s (.stmt st) with
      | none => none
      | some (s1, .error err) => some (s1, .error err)
      | some (s1, .ok _) => run n s1 (.stmts rest)

/-- `Interpreter::new`, from `src/interpreter.rs`: a single global frame
holding the `clock` native. -/
def initState : InterpState :=
  { arena := [Frame.mk [("clock", Literal.Function (Function.Native 0 0))] none]
  , globals := 0
  , environment := 0
  , output := [] }

/-! ## The parser (src/parser.rs)

The `Parser` struct is a token list plus a cursor.  Each Rust method
becomes a request of the fuel-indexed step function `pstep`; internal
`while` loops become requests carrying their accumulator.  `PRes.crash`
models a Rust panic: `peek`/`previous` call `.unwrap()` on `tokens.get(..)`,
and `previous` computes `self.current - 1` in `usize`, which panics (debug:
overflow; release: wrap then failed unwrap) when `current == 0`. -/

/-- The `Parser` struct of `src/parser.rs`. -/
structure PState where
  tokens : List Token
  current : Nat
deriving DecidableEq

/-- `Parser::peek`: `tokens.get(current).unwrap()`; `none` is the panic. -/
def peekT (s : PState) : Option Token :=
  s.tokens.get? s.current

/-- `Parser::previous`: `tokens.get(current - 1).unwrap()`; at
`current == 0` the `usize` subtraction panics, hence `none`. -/
def previousT (s : PState) : Option Token :=
  if s.current = 0 then none else s.tokens.get? (s.current - 1)

/-- `Parser::is_at_end`: whether `peek` is the EOF token. -/
def isAtEndT (s : PState) : Option Bool :=
  (peekT s).map (fun t => decide (t.token_type = TokenType.EOF))

/-- `Parser::advance`: step the cursor unless at end, then return
`previous`. -/
def advanceT (s : PState) : Option (Token × PState) :=
  match isAtEndT s with
  | none => none
  | some atEnd =>
    match previousT (if atEnd then s else { s with current := s.current + 1 }) with
    | none => none
    | some t => some (t, if atEnd then s else { s with current := s.current + 1 })

/-- `Parser::check`: false at end, else compare the peeked token type. -/
def checkT (s : PState) (tt : TokenType) : Option Bool :=
  match isAtEndT s with
  | none => none
  | some true => some false
  | some false => (peekT s).map (fun t => decide (t.token_type = tt))

/-- `Parser::match_token`: advance on a successful check. -/
def matchT (s : PState) (tt : TokenType) : Option (Bool × PState) :=
  match checkT s tt with
  | none => none
  | some true =>
    match advanceT s with
    | none => none
    | some (_, s1) => some (true, s1)
  | some false => some (false, s)

/-- The `match_any_token!` macro: try each type in turn, short-circuiting. -/
def matchAny (s : PState) : List TokenType → Option (Bool × PState)
  | [] => some (false, s)
  | tt :: rest =>
    match matchT s tt with
    | none => none
    | some (true, s1) => some (true, s1)
    | some (false, _) => matchAny s rest

/-- `Parser::consume`: advance past an expected token type or produce a
syntax error at the peeked token. -/
def consumeT (s : PState) (tt : TokenType) (msg : String) :
    Option (Except LoxError (Token × PState)) :=
  match checkT s tt with
  | none => none
  | some true =>
    match advanceT s with
    | none => none
    | some (t, s1) => some (.ok (t, s1))
  | some false =>
    match peekT s with
    | none => none
    | some t => some (.error (LoxError.parse_error t msg))

/-- `Parser::consume_identifier`. -/
def consumeIdentifierT (s : PState) (msg : String) :
    Option (Except LoxError (Token × PState)) :=
  match peekT s with
  | none => none
  | some token =>
    match token.token_type with
    | .Identifier _ =>
      match advanceT s with
      | none => none
      | some (t, s1) => some (.ok (t, s1))
    | _ => some (.error (LoxError.parse_error token msg))

/-- The statement-boundary keywords of `Parser::synchronize`. -/
def isSyncKeyword : TokenType → Bool
  | .Class | .Fun | .Var | .For | .If | .While | .Print | .Return => true
  | _ => false

/-- Values produced by parser requests. -/
inductive PVal where
  | exprV : Expr → PVal
  | stmtV : Stmt → PVal
  | stmtsV : List Stmt → PVal
  | tokensV : List Token → PVal
  | unitV : PVal
  | parsedV : Except (List LoxError) (List Stmt) → PVal

/-- Outcome of a parser request: success or syntax error (each with the
resulting parser state), or a Rust panic. -/
inductive PRes where
  | ok : PVal → PState → PRes
  | err : LoxError → PState → PRes
  | crash : PRes

/-- The parser's methods and internal loops as requests.  Loop requests
carry the loop accumulator; `assignTail` carries the captured
`let expr = self.or()` result; the staged `for`/`fun`/`var` requests carry
the clauses already parsed. -/
inductive PReq where
  | parseProgram
  | parseLoop : List Stmt → List LoxError → PReq
  | declaration
  | declBody
  | functionDeclaration : String → PReq
  | paramsLoop : String → List Token → PReq
  | funDeclAfterParams : String → Token → List Token → PReq
  | varDeclaration
  | varDeclEnd : Token → Option Expr → PReq
  | statement
  | parseIf
  | parseBlock
  | blockLoop : List Stmt → PReq
  | printStatement
  | returnStatement
  | whileStatement
  | forStatement
  | forAfterInit : Option Stmt → PReq
  | forAfterCond : Option Stmt → Option Expr → PReq
  | forAfterInc : Option Stmt → Option Expr → Option Expr → PReq
  | exprStatement
  | expression
  | assignment
  | assignTail : Except LoxError Expr → PReq
  | orE
  | orLoop : Expr → PReq
  | andE
  | andLoop : Expr → PReq
  | equality
  | equalityLoop : Expr → PReq
  | comparison
  | comparisonLoop : Expr → PReq
  | term
  | termLoop : Expr → PReq
  | factor
  | factorLoop : Expr → PReq
  | unaryE
  | callE
  | callLoop : Expr → PReq
  | finishCall : Expr → PReq
  | argsLoop : Expr → List Expr → PReq
  | finishCallEnd : Expr → List Expr → PReq
  | primary
  | synchronize
  | syncLoop

/-- The recursive-descent parser of `src/parser.rs` as one fuel-indexed
step function; the outer `none` is fuel exhaustion, distinct from
`PRes.crash`. -/
def pstep : Nat → PState → PReq → Option PRes
  | 0, _, _ => none
  | n + 1, s, req =>
    match req with
    | .parseProgram =>
      if s.tokens.length = 1 then
        some (.ok (.parsedV (.ok [Stmt.Expression (Expr.Literal Literal.Nil)])) s)
      else pstep n s (.parseLoop [] [])
    | .parseLoop prog errs =>
      match isAtEndT s with
      | none => some .crash
      | some true =>
        some (.ok (.parsedV (if errs.isEmpty then .ok prog else .error errs)) s)
      | some false =>
        match pstep n s .declaration with
        | none => none
        | some .crash => some .crash
        | some (.ok (.stmtV st) s1) => pstep n s1 (.parseLoop (prog ++ [st]) errs)
        | some (.ok _ _) => some .crash
        | some (.err e s1) =>
          match pstep n s1 .synchronize with
          | none => none
          | some (.ok _ s2) => pstep n s2 (.parseLoop prog (errs ++ [e]))
          | some .crash => some .crash
          | some (.err _ _) => some .crash
    | .declaration =>
      match pstep n s .declBody with
      | none => none
      | some .crash => some .crash
      | some (.ok v s1) => some (.ok v s1)
      | some (.err e s1) =>
        match pstep n s1 .synchronize with
        | none => none
        | some (.ok _ s2) => some (.err e s2)
        | some .crash => some .crash
        | some (.err _ _) => some .crash
    | .declBody =>
      match peekT s with
      | none => some .crash
      | some t =>
        match t.token_type with
        | .Fun =>
          match advanceT s with
          | none => some .crash
          | some (_, s1) => pstep n s1 (.functionDeclaration "function")
        | .Var =>
          match advanceT s with
          | none => some .crash
          | some (_, s1) => pstep n s1 .varDeclaration
        | _ => pstep n s .statement
    | .functionDeclaration kind =>
      match consumeIdentifierT s ("Expected " ++ kind ++ " name.") with
      | none => some .crash
      | some (.error e) => some (.err e s)
      | some (.ok (name, s1)) =>
        match consumeT s1 .LeftParen ("Expected '(' after " ++ kind ++ " name.") with
        | none => some .crash
        | some (.error e) => some (.err e s1)
        | some (.ok (_, s2)) =>
          match checkT s2 .RightParen with
          | none => some .crash
          | some false =>
            match pstep n s2 (.paramsLoop kind []) with
            | none => none
            | some .crash => some .crash
            | some (.err e s3) => some (.err e s3)
            | some (.ok (.tokensV params) s3) =>
              pstep n s3 (.funDeclAfterParams kind name params)
            | some (.ok _ _) => some .crash
          | some true => pstep n s2 (.funDeclAfterParams kind name [])
    | .paramsLoop kind params =>
      match consumeIdentifierT s "Expected parameter name." with
      | none => some .crash
      | some (.error e) => some (.err e s)
      | some (.ok (tok, s1)) =>
        if (params ++ [tok]).length ≥ 255 then
          match previousT s1 with
          | none => some .crash
          | some prev =>
            some (.err (LoxError.parse_error prev
              ("A " ++ kind ++ " cannot have more than 255 parameters.")) s1)
        else
          match matchT s1 .Comma with
          | none => some .crash
          | some (true, s2) => pstep n s2 (.paramsLoop kind (params ++ [tok]))
          | some (false, s2) => some (.ok (.tokensV (params ++ [tok])) s2)
    | .funDeclAfterParams kind name params =>
      match consumeT s .RightParen "Expected ')' after parameter list." with
      | none => some .crash
      | some (.error e) => some (.err e s)
      | some (.ok (_, s1)) =>
        match consumeT s1 .LeftBrace ("Expected '\x7b' before " ++ kind ++ " body.") with
        | none => some .crash
        | some (.error e) => some (.err e s1)
        | some (.ok (_, s2)) =>
          match pstep n s2 .parseBlock with
          | none => none
          | some .crash => some .crash
          | some (.err e s3) => some (.err e s3)
          | some (.ok (.stmtsV body) s3) =>
            some (.ok (.stmtV (Stmt.Function name params body)) s3)
          | some (.ok _ _) => some .crash
    | .varDeclaration =>
      match peekT s with
      | none => some .crash
      | some identifier =>
        match identifier.token_type with
        | .Identifier _ =>
          match advanceT s with
          | none => some .crash
          | some (_, s1) =>
            match matchT s1 .Equal with
            | none => some .crash
            | some (true, s2) =>
              match pstep n s2 .expression with
              | none => none
              | some .crash => some .crash
              | some (.err e s3) => some (.err e s3)
              | some (.ok (.exprV v) s3) => pstep n s3 (.varDeclEnd identifier (some v))
              | some (.ok _ _) => some .crash
            | some (false, s2) => pstep n s2 (.varDeclEnd identifier none)
        | _ => some (.err (LoxError.parse_error identifier "Expected variable name.") s)
    | .varDeclEnd identifier initializer =>
      match consumeT s .Semicolon "Expected ';' after variable declaration" with
      | none => some .crash
      | some (.error e) => some (.err e s)
      | some (.ok (_, s1)) => some (.ok (.stmtV (Stmt.Var identifier initializer)) s1)
    | .statement =>
      match peekT s with
      | none => some .crash
      | some t =>
        match t.token_type with
        | .Print =>
          match advanceT s with
          | none => some .crash
          | some (_, s1) => pstep n s1 .printStatement
        | .Return =>
          match advanceT s with
          | none => some .crash
          | some (_, s1) => pstep n s1 .returnStatement
        | .While =>
          match advanceT s with
          | none => some .crash
          | some (_, s1) => pstep n s1 .whileStatement
        | .For =>
          match advanceT s with
          | none => some .crash
          | some (_, s1) => pstep n s1 .forStatement
        | .LeftBrace =>
          match advanceT s with
          | none => some .crash
          | some (_, s1) =>
            match pstep n s1 .parseBlock with
            | none => none
            | some .crash => some .crash
            | some (.err e s2) => some (.err e s2)
            | some (.ok (.stmtsV block) s2) => some (.ok (.stmtV (Stmt.Block block)) s2)
            | some (.ok _ _) => some .crash
        | .If =>
          match advanceT s with
          | none => some .crash
          | some (_, s1) => pstep n s1 .parseIf
        | _ => pstep n s .exprStatement
    | .parseIf =>
      match consumeT s .LeftParen "Expected '(' after 'if'." with
      | none => some .crash
      | some (.error e) => some (.err e s)
      | some (.ok (_, s1)) =>
        match pstep n s1 .expression with
        | none => none
        | some .crash => some .crash
        | some (.err e s2) => some (.err e s2)
        | some (.ok (.exprV condition) s2) =>
          match consumeT s2 .RightParen "Expected ')' after if condition." with
          | none => some .crash
          | some (.error e) => some (.err e s2)
          | some (.ok (_, s3)) =>
            match pstep n s3 .statement with
            | none => none
            | some .crash => some .crash
            | some (.err e s4) => some (.err e s4)
            | some (.ok (.stmtV then_branch) s4) =>
              match matchT s4 .Else with
              | none => some .crash
              | some (true, s5) =>
                match pstep n s5 .statement with
                | none => none
                | some .crash => some .crash
                | some (.err e s6) => some (.err e s6)
                | some (.ok (.stmtV else_branch) s6) =>
                  some (.ok (.stmtV (Stmt.If condition then_branch (some else_branch))) s6)
                | some (.ok _ _) => some .crash
              | some (false, s5) =>
                some (.ok (.stmtV (Stmt.If condition then_branch none)) s5)
            | some (.ok _ _) => some .crash
        | some (.ok _ _) => some .crash
    | .parseBlock => pstep n s (.blockLoop [])
    | .blockLoop acc =>
      match checkT s .RightBrace with
      | none => some .crash
      | some closeBrace =>
        match isAtEndT s with
        | none => some .crash
        | some atEnd =>
          if !closeBrace && !atEnd then
            match pstep n s .declaration with
            | none => none
            | some .crash => some .crash
            | some (.err e s1) => some (.err e s1)
            | some (.ok (.stmtV st) s1) => pstep n s1 (.blockLoop (acc ++ [st]))
            | some (.ok _ _) => some .crash
          else
            match consumeT s .RightBrace "Expected '\x7d' after block." with
            | none => some .crash
            | some (.error e) => some (.err e s)
            | some (.ok (_, s1)) => some (.ok (.stmtsV acc) s1)
    | .printStatement =>
      match pstep n s .expression with
      | none => none
      | some .crash => some .crash
      | some (.err e s1) => some (.err e s1)
      | some (.ok (.exprV e) s1) =>
        match consumeT s1 .Semicolon "Expected semicolon" with
        | none => some .crash
        | some (.error err) => some (.err err s1)
        | some (.ok (_, s2)) => some (.ok (.stmtV (Stmt.Print e)) s2)
      | some (.ok _ _) => some .crash
    | .returnStatement =>
      match previousT s with
      | none => some .crash
      | some keyword =>
        match checkT s .Semicolon with
        | none => some .crash
        | some true =>
          match consumeT s .Semicolon "Expected ';' after return value." with
          | none => some .crash
          | some (.error e) => some (.err e s)
          | some (.ok (_, s1)) => some (.ok (.stmtV (Stmt.Return keyword none)) s1)
        | some false =>
          match pstep n s .expression with
          | none => none
          | some .crash => some .crash
          | some (.err e s1) => some (.err e s1)
          | some (.ok (.exprV v) s1) =>
            match consumeT s1 .Semicolon "Expected ';' after return value." with
            | none => some .crash
            | some (.error e) => some (.err e s1)
            | some (.ok (_, s2)) => some (.ok (.stmtV (Stmt.Return keyword (some v))) s2)
          | some (.ok _ _) => some .crash
    | .whileStatement =>
      match consumeT s .LeftParen "Expected '(' after 'while'." with
      | none => some .crash
      | some (.error e) => some (.err e s)
      | some (.ok (_, s1)) =>
        match pstep n s1 .expression with
        | none => none
        | some .crash => some .crash
        | some (.err e s2) => some (.err e s2)
        | some (.ok (.exprV condition) s2) =>
          match consumeT s2 .RightParen "Expected ')' after condition." with
          | none => some .crash
          | some (.error e) => some (.err e s2)
          | some (.ok (_, s3)) =>
            match pstep n s3 .statement with
            | none => none
            | some .crash => some .crash
            | some (.err e s4) => some (.err e s4)
            | some (.ok (.stmtV body) s4) =>
              some (.ok (.stmtV (Stmt.While condition body)) s4)
            | some (.ok _ _) => some .crash
        | some (.ok _ _) => some .crash
    | .forStatement =>
      match consumeT s .LeftParen "Expected '(' after 'for'." with
      | none => some .crash
      | some (.error e) => some (.err e s)
      | some (.ok (_, s1)) =>
        match matchT s1 .Var with
        | none => some .crash
        | some (true, s2) =>
          match pstep n s2 .varDeclaration with
          | none => none
          | some .crash => some .crash
          | some (.err e s3) => some (.err e s3)
          | some (.ok (.stmtV i) s3) => pstep n s3 (.forAfterInit (some i))
          | some (.ok _ _) => some .crash
        | some (false, s2) =>
          match matchT s2 .Semicolon with
          | none => some .crash
          | some (true, s3) => pstep n s3 (.forAfterInit none)
          | some (false, s3) =>
            match pstep n s3 .exprStatement with
            | none => none
            | some .crash => some .crash
            | some (.err e s4) => some (.err e s4)
            | some (.ok (.stmtV i) s4) => pstep n s4 (.forAfterInit (some i))
            | some (.ok _ _) => some .crash
    | .forAfterInit initializer =>
      match peekT s with
      | none => some .crash
      | some t =>
        match t.token_type with
        | .Semicolon => pstep n s (.forAfterCond initializer none)
        | _ =>
          match pstep n s .expression with
          | none => none
          | some .crash => some .crash
          | some (.err e s1) => some (.err e s1)
          | some (.ok (.exprV c) s1) => pstep n s1 (.forAfterCond initializer (some c))
          | some (.ok _ _) => some .crash
    | .forAfterCond initializer condition =>
      match consumeT s .Semicolon "Expected ';' after loop condition." with
      | none => some .crash
      | some (.error e) => some (.err e s)
      | some (.ok (_, s1)) =>
        match peekT s1 with
        | none => some .crash
        | some t =>
          match t.token_type with
          | .RightParen => pstep n s1 (.forAfterInc initializer condition none)
          | _ =>
            match pstep n s1 .expression with
            | none => none
            | some .crash => some .crash
            | some (.err e s2) => some (.err e s2)
            | some (.ok (.exprV i) s2) =>
              pstep n s2 (.forAfterInc initializer condition (some i))
            | some (.ok _ _) => some .crash
    | .forAfterInc initializer condition increment =>
      match consumeT s .RightParen "Expected ')' after for clause." with
      | none => some .crash
      | some (.error e) => some (.err e s)
      | some (.ok (_, s1)) =>
        match pstep n s1 .statement with
        | none => none
        | some .crash => some .crash
        | some (.err e s2) => some (.err e s2)
        | some (.ok (.stmtV body) s2) =>
          some (.ok (.stmtV
            (match initializer with
             | some i =>
               Stmt.Block [i, Stmt.While
                 (match condition with
                  | some c => c
                  | none => Expr.Literal (Literal.Boolean true))
                 (match increment with
                  | some inc => Stmt.Block [body, Stmt.Expression inc]
                  | none => body)]
             | none =>
               match increment with
               | some inc => Stmt.Block [body, Stmt.Expression inc]
               | none => body)) s2)
        | some (.ok _ _) => some .crash
    | .exprStatement =>
      match pstep n s .expression with
      | none => none
      | some .crash => some .crash
      | some (.err e s1) => some (.err e s1)
      | some (.ok (.exprV e) s1) =>
        match consumeT s1 .Semicolon "Expected semicolon" with
        | none => some .crash
        | some (.error err) => some (.err err s1)
        | some (.ok (_, s2)) => some (.ok (.stmtV (Stmt.Expression e)) s2)
      | some (.ok _ _) => some .crash
    | .expression => pstep n s .assignment
    | .assignment =>
      match pstep n s .orE with
      | none => none
      | some .crash => some .crash
      | some (.ok (.exprV e) s1) => pstep n s1 (.assignTail (.ok e))
      | some (.ok _ _) => some .crash
      | some (.err e1 s1) => pstep n s1 (.assignTail (.error e1))
    | .assignTail res =>
      match matchT s .Equal with
      | none => some .crash
      | some (false, s1) =>
        match res with
        | .ok e => some (.ok (.exprV e) s1)
        | .error e1 => some (.err e1 s1)
      | some (true, s1) =>
        match pstep n s1 .assignment with
        | none => none
        | some .crash => some .crash
        | some (.err e2 s2) => some (.err e2 s2)
        | some (.ok (.exprV value) s2) =>
          match res with
          | .ok (Expr.Var name) => some (.ok (.exprV (Expr.Assign name value)) s2)
          | _ =>
            match previousT s2 with
            | none => some .crash
            | some prev =>
              some (.err (LoxError.parse_error prev "Invalid assignment target.") s2)
        | some (.ok _ _) => some .crash
    | .orE =>
      match pstep n s .andE with
      | none => none
      | some .crash => some .crash
      | some (.err e s1) => some (.err e s1)
      | some (.ok (.exprV e) s1) => pstep n s1 (.orLoop e)
      | some (.ok _ _) => some .crash
    | .orLoop e =>
      match matchT s .Or with
      | none => some .crash
      | some (false, s1) => some (.ok (.exprV e) s1)
      | some (true, s1) =>
        match previousT s1 with
        | none => some .crash
        | some operator =>
          match pstep n s1 .andE with
          | none => none
          | some .crash => some .crash
          | some (.err e2 s2) => some (.err e2 s2)
          | some (.ok (.exprV right) s2) =>
            pstep n s2 (.orLoop (Expr.Logical e operator right))
          | some (.ok _ _) => some .crash
    | .andE =>
      match pstep n s .equality with
      | none => none
      | some .crash => some .crash
      | some (.err e s1) => some (.err e s1)
      | some (.ok (.exprV e) s1) => pstep n s1 (.andLoop e)
      | some (.ok _ _) => some .crash
    | .andLoop e =>
      match matchT s .And with
      | none => some .crash
      | some (false, s1) => some (.ok (.exprV e) s1)
      | some (true, s1) =>
        match previousT s1 with
        | none => some .crash
        | some operator =>
          match pstep n s1 .equality with
          | none => none
          | some .crash => some .crash
          | some (.err e2 s2) => some (.err e2 s2)
          | some (.ok (.exprV right) s2) =>
            pstep n s2 (.andLoop (Expr.Logical e operator right))
          | some (.ok _ _) => some .crash
    | .equality =>
      match pstep n s .comparison with
      | none => none
      | some .crash => some .crash
      | some (.err e s1) => some (.err e s1)
      | some (.ok (.exprV e) s1) => pstep n s1 (.equalityLoop e)
      | some (.ok _ _) => some .crash
    | .equalityLoop e =>
      match matchAny s [.BangEqual, .EqualEqual] with
      | none => some .crash
      | some (false, s1) => some (.ok (.exprV e) s1)
      | some (true, s1) =>
        match previousT s1 with
        | none => some .crash
        | some operator =>
          match pstep n s1 .comparison with
          | none => none
          | some .crash => some .crash
          | some (.err e2 s2) => some (.err e2 s2)
          | some (.ok (.exprV right) s2) =>
            pstep n s2 (.equalityLoop (Expr.Binary e operator right))
          | some (.ok _ _) => some .crash
    | .comparison =>
      match pstep n s .term with
      | none => none
      | some .crash => some .crash
      | some (.err e s1) => some (.err e s1)
      | some (.ok (.exprV e) s1) => pstep n s1 (.comparisonLoop e)
      | some (.ok _ _) => some .crash
    | .comparisonLoop e =>
      match matchAny s [.Greater, .GreaterEqual, .Less, .LessEqual] with
      | none => some .crash
      | some (false, s1) => some (.ok (.exprV e) s1)
      | some (true, s1) =>
        match previousT s1 with
        | none => some .crash
        | some operator =>
          match pstep n s1 .term with
          | none => none
          | some .crash => some .crash
          | some (.err e2 s2) => some (.err e2 s2)
          | some (.ok (.exprV right) s2) =>
            pstep n s2 (.comparisonLoop (Expr.Binary e operator right))
          | some (.ok _ _) => some .crash
    | .term =>
      match pstep n s .factor with
      | none => none
      | some .crash => some .crash
      | some (.err e s1) => some (.err e s1)
      | some (.ok (.exprV e) s1) => pstep n s1 (.termLoop e)
      | some (.ok _ _) => some .crash
    | .termLoop e =>
      match matchAny s [.Minus, .Plus] with
      | none => some .crash
      | some (false, s1) => some (.ok (.exprV e) s1)
      | some (true, s1) =>
        match previousT s1 with
        | none => some .crash
        | some operator =>
          match pstep n s1 .factor with
          | none => none
          | some .crash => some .crash
          | some (.err e2 s2) => some (.err e2 s2)
          | some (.ok (.exprV right) s2) =>
            pstep n s2 (.termLoop (Expr.Binary e operator right))
          | some (.ok _ _) => some .crash
    | .factor =>
      match pstep n s .unaryE with
      | none => none
      | some .crash => some .crash
      | some (.err e s1) => some (.err e s1)
      | some (.ok (.exprV e) s1) => pstep n s1 (.factorLoop e)
      | some (.ok _ _) => some .crash
    | .factorLoop e =>
      match matchAny s [.Slash, .Star] with
      | none => some .crash
      | some (false, s1) => some (.ok (.exprV e) s1)
      | some (true, s1) =>
        match previousT s1 with
        | none => some .crash
        | some operator =>
          match pstep n s1 .unaryE with
          | none => none
          | some .crash => some .crash
          | some (.err e2 s2) => some (.err e2 s2)
          | some (.ok (.exprV right) s2) =>
            pstep n s2 (.factorLoop (Expr.Binary e operator right))
          | some (.ok _ _) => some .crash
    | .unaryE =>
      match matchAny s [.Bang, .Minus] with
      | none => some .crash
      | some (true, s1) =>
        match previousT s1 with
        | none => some .crash
        | some operator =>
          match pstep n s1 .unaryE with
          | none => none
          | some .crash => some .crash
          | some (.err e2 s2) => some (.err e2 s2)
          | some (.ok (.exprV right) s2) =>
            some (.ok (.exprV (Expr.Unary operator right)) s2)
          | some (.ok _ _) => some .crash
      | some (false, s1) => pstep n s1 .callE
    | .callE =>
      match pstep n s .primary with
      | none => none
      | some .crash => some .crash
      | some (.err e s1) => some (.err e s1)
      | some (.ok (.exprV e) s1) => pstep n s1 (.callLoop e)
      | some (.ok _ _) => some .crash
    | .callLoop e =>
      match matchT s .LeftParen with
      | none => some .crash
      | some (false, s1) => some (.ok (.exprV e) s1)
      | some (true, s1) =>
        match pstep n s1 (.finishCall e) with
        | none => none
        | some .crash => some .crash
        | some (.err e2 s2) => some (.err e2 s2)
        | some (.ok (.exprV e2) s2) => pstep n s2 (.callLoop e2)
        | some (.ok _ _) => some .crash
    | .finishCall callee =>
      match checkT s .RightParen with
      | none => some .crash
      | some false => pstep n s (.argsLoop callee [])
      | some true => pstep n s (.finishCallEnd callee [])
    | .argsLoop callee args =>
      match pstep n s .expression with
      | none => none
      | some .crash => some .crash
      | some (.err e s1) => some (.err e s1)
      | some (.ok (.exprV a) s1) =>
        if (args ++ [a]).length ≥ 255 then
          match previousT s1 with
          | none => some .crash
          | some prev =>
            some (.err (LoxError.parse_error prev
              "Function call cannot have more than 255 arguments.") s1)
        else
          match matchT s1 .Comma with
          | none => some .crash
          | some (true, s2) => pstep n s2 (.argsLoop callee (args ++ [a]))
          | some (false, s2) => pstep n s2 (.finishCallEnd callee (args ++ [a]))
      | some (.ok _ _) => some .crash
    | .finishCallEnd callee args =>
      match consumeT s .RightParen "Expected ')' after argument list." with
      | none => some .crash
      | some (.error e) => some (.err e s)
      | some (.ok (paren, s1)) => some (.ok (.exprV (Expr.Call callee paren args)) s1)
    | .primary =>
      match peekT s with
      | none => some .crash
      | some t =>
        match t.token_type with
        | .False =>
          match advanceT s with
          | none => some .crash
          | some (_, s1) => some (.ok (.exprV (Expr.Literal (Literal.Boolean false))) s1)
        | .True =>
          match advanceT s with
          | none => some .crash
          | some (_, s1) => some (.ok (.exprV (Expr.Literal (Literal.Boolean true))) s1)
        | .Nil =>
          match advanceT s with
          | none => some .crash
          | some (_, s1) => some (.ok (.exprV (Expr.Literal Literal.Nil)) s1)
        | .Number value =>
          match advanceT s with
          | none => some .crash
          | some (_, s1) => some (.ok (.exprV (Expr.Literal (Literal.Number value))) s1)
        | .String value =>
          match advanceT s with
          | none => some .crash
          | some (_, s1) => some (.ok (.exprV (Expr.Literal (Literal.String value))) s1)
        | .LeftParen =>
          match advanceT s with
          | none => some .crash
          | some (_, s1) =>
            match pstep n s1 .expression with
            | none => none
            | some .crash => some .crash
            | some (.err e s2) => some (.err e s2)
            | some (.ok (.exprV e) s2) =>
              match consumeT s2 .RightParen "Expected ')' after expression." with
              | none => some .crash
              | some (.error err) => some (.err err s2)
              | some (.ok (_, s3)) => some (.ok (.exprV (Expr.Grouping e)) s3)
            | some (.ok _ _) => some .crash
        | .Identifier _ =>
          match advanceT s with
          | none => some .crash
          | some (tk, s1) => some (.ok (.exprV (Expr.Var tk)) s1)
        | _ =>
          match previousT s with
          | none => some .crash
          | some prev =>
            some (.err (LoxError.parse_error prev "Expected expression") s)
    | .synchronize =>
      match advanceT s with
      | none => some .crash
      | some (_, s1) => pstep n s1 .syncLoop
    | .syncLoop =>
      match isAtEndT s with
      | none => some .crash
      | some true => some (.ok .unitV s)
      | some false =>
        match previousT s with
        | none => some .crash
        | some prev =>
          if prev.token_type = TokenType.Semicolon then some (.ok .unitV s)
          else
            match peekT s with
            | none => some .crash
            | some t =>
              if isSyncKeyword t.token_type then some (.ok .unitV s)
              else
                match advanceT s with
                | none => some .crash
                | some (_, s1) => pstep n s1 .syncLoop

/-- `Parser::new` followed by `Parser::parse`. -/
def parseTokens (fuel : Nat) (tokens : List Token) : Option PRes :=
  pstep fuel { tokens := tokens, current := 0 } .parseProgram

/-- Projection: the statement list of a successful parse. -/
def parsedProgram : Option PRes → Option (List Stmt)
  | some (.ok (.parsedV (.ok prog)) _) => some prog
  | _ => none

/-- Projection: the collected error list of a failed parse. -/
def parsedErrors : Option PRes → Option (List LoxError)
  | some (.ok (.parsedV (.error errs)) _) => some errs
  | _ => none

/-- Whether the captured left-hand result of `Parser::assignment` is a bare
variable reference (the only target shape producing an `Assign` node). -/
def resIsVar : Except LoxError Expr → Bool
  | .ok (Expr.Var _) => true
  | _ => false

/-! ## Concrete tokens and token streams used by the theorems -/

/-- A token on line 1. -/
def tk (tt : TokenType) (lx : String) : Token :=
  { token_type := tt, lexeme := lx, line := 1 }

/-- The `var` keyword token. -/
def varKwT : Token := tk .Var "var"

/-- A semicolon token. -/
def semiT : Token := tk .Semicolon ";"

/-- A number token. -/
def numT (n : Int) : Token := tk (.Number n) (toString n)

/-- The `print` keyword token. -/
def printKwT : Token := tk .Print "print"

/-- The end-of-input token. -/
def eofT : Token := tk .EOF ""

/-- A `+` token. -/
def plusT : Token := tk .Plus "+"

/-- An `=` token. -/
def eqT : Token := tk .Equal "="

/-- The `for` keyword token. -/
def forKwT : Token := tk .For "for"

/-- A `(` token. -/
def lpT : Token := tk .LeftParen "("

/-- A `)` token. -/
def rpT : Token := tk .RightParen ")"

/-- The `true` keyword token. -/
def trueKwT : Token := tk .True "true"

/-- An identifier token. -/
def idT (s : String) : Token := tk (.Identifier s) s

/-- The `fun` keyword token. -/
def funKwT : Token := tk .Fun "fun"

/-- A comma token. -/
def commaT : Token := tk .Comma ","

/-- A `\x7b` token. -/
def lbT : Token := tk .LeftBrace "\x7b"

/-- A `\x7d` token. -/
def rbT : Token := tk .RightBrace "\x7d"

/-- A `!` token. -/
def bangT : Token := tk .Bang "!"

/-- An `or` keyword token. -/
def orKwT : Token := tk .Or "or"

/-- An `and` keyword token. -/
def andKwT : Token := tk .And "and"

/-- The `return` keyword token. -/
def retKwT : Token := tk .Return "return"

/-- Tokens of `var 1; var 2; var 3;` — three malformed declarations. -/
def toksThreeBad : List Token :=
  [varKwT, numT 1, semiT, varKwT, numT 2, semiT, varKwT, numT 3, semiT, eofT]

/-- Tokens of `var 1; print 1; var 2; print 2;` — two malformed declarations
separated by valid statements. -/
def toksTwoBadSeparated : List Token :=
  [varKwT, numT 1, semiT, printKwT, numT 1, semiT,
   varKwT, numT 2, semiT, printKwT, numT 2, semiT, eofT]

/-- Tokens of `for (; true; ) print 1;` — a `for` loop with an empty
initializer clause. -/
def toksForNoInit : List Token :=
  [forKwT, lpT, semiT, trueKwT, semiT, rpT, printKwT, numT 1, semiT, eofT]

/-- Tokens of `1 = 2;` — an assignment whose target is not a variable. -/
def toksBadAssign : List Token :=
  [numT 1, eqT, numT 2, semiT, eofT]

/-- `n` parameter/comma pairs for a parameter list. -/
def paramPairs : Nat → List Token
  | 0 => []
  | n + 1 => idT "p" :: commaT :: paramPairs n

/-- Tokens of `fun f(p, …, p) \x7b \x7d` with `extra + 1` parameters. -/
def funDeclToks (extra : Nat) : List Token :=
  [funKwT, idT "f", lpT] ++ paramPairs extra ++ [idT "p", rpT, lbT, rbT, eofT]

/-! ## The claims -/

/-- C1: the claimed whole-chain search of `Environment::fetch` fails on the
code.  With a three-frame chain whose only binding of `x` lives in the
outermost frame, `fetch` from the innermost frame returns no value (its
parent lookup uses the non-recursive `get`, so only the frame itself and its
direct parent are consulted), although the same lookup one frame further in
succeeds and `Environment::assign` does reach the outermost frame of the
same chain. -/
theorem fetch_stops_at_parent :
    (Env.mk [] (some (Env.mk []
      (some (Env.mk [("x", Literal.Number 1)] none))))).fetch "x" = none
  ∧ (Env.mk [] (some (Env.mk [("x", Literal.Number 1)] none))).fetch "x"
      = some (Literal.Number 1)
  ∧ ((Env.mk [] (some (Env.mk []
      (some (Env.mk [("x", Literal.Number 1)] none))))).assign "x"
        (Literal.Number 2)).1 = true :=
  ⟨rfl, rfl, rfl⟩

/-- C2: unary `!` returns the operand's truthiness itself, not its negation:
`!nil` and `!false` evaluate to `Boolean(false)` and `!1` to
`Boolean(true)`, the opposite of what the claim states. -/
theorem bang_returns_truthiness :
    run 2 initState (.expr (Expr.Unary bangT (Expr.Literal Literal.Nil)))
      = some (initState, .ok (Literal.Boolean false))
  ∧ run 2 initState (.expr (Expr.Unary bangT (Expr.Literal (Literal.Boolean false))))
      = some (initState, .ok (Literal.Boolean false))
  ∧ run 2 initState (.expr (Expr.Unary bangT (Expr.Literal (Literal.Number 1))))
      = some (initState, .ok (Literal.Boolean true)) :=
  ⟨rfl, rfl, rfl⟩

/-- C3: parsing `for (; true; ) print 1;` produces just the print statement
— `for_statement` discards the constructed `while` loop whenever the
initializer clause is empty, so the desugared form contains no `While`
node at all, contradicting the claimed `while`-loop expansion. -/
theorem for_without_initializer_drops_while :
    parsedProgram (parseTokens 100 toksForNoInit)
      = some [Stmt.Print (Expr.Literal (Literal.Number 1))] :=
  rfl

/-- C4: at the boundary that invoked a user-defined function's body
(`Function::call`), a body execution that finishes with a `Return`-kind
error is converted into the call's success value carrying the returned
value, a body execution that finishes with any other error kind propagates
that error unchanged, and no result of `Function::call` is ever an error of
the `Return` kind — a `Return` cannot escape a function-call boundary. -/
theorem function_call_intercepts_return :
    (∀ (n : Nat) (s : InterpState) (arity : Nat) (params : List Token)
       (body : List Stmt) (closureId : Nat) (args : List Literal) (paren : Token)
       (vals : List (String × Literal)) (s2 : InterpState) (e : LoxError),
       bindParams params args [] = some vals →
       run n { s with arena := s.arena ++ [Frame.mk vals (some closureId)],
                      environment := s.arena.length } (.stmts body)
         = some (s2, .error e) →
       (∀ v, e.kind = LoxErrorType.Return v →
          run (n + 1) s (.callFn (Function.Lox arity params body closureId) args paren)
            = some ({ s2 with environment := s.environment }, .ok v)) ∧
       ((∀ v, e.kind ≠ LoxErrorType.Return v) →
          run (n + 1) s (.callFn (Function.Lox arity params body closureId) args paren)
            = some ({ s2 with environment := s.environment }, .error e))) ∧
    (∀ (n : Nat) (s : InterpState) (f : Function) (args : List Literal)
       (paren : Token) (s' : InterpState) (e : LoxError),
       run n s (.callFn f args paren) = some (s', .error e) →
       ∀ v, e.kind ≠ LoxErrorType.Return v) := by
  constructor
  · intro n s arity params body closureId args paren vals s2 e hbind hbody
    constructor
    · intro v hk
      simp only [run, hbind, hbody, hk]
    · intro hne
      rcases hke : e.kind with m | d | v
      · simp only [run, hbind, hbody, hke]
      · simp only [run, hbind, hbody, hke]
      · exact absurd hke (hne v)
  · intro n s f args paren s' e h v
    cases n with
    | zero => simp [run] at h
    | succ m =>
      cases f with
      | Native a b => simp [run] at h
      | Lox a ps bd cl =>
        simp only [run] at h
        split at h
        · exact absurd h (by simp)
        · split at h
          · exact absurd h (by simp)
          · simp at h
          · split at h
            · simp at h
            · next msg heq =>
                simp only [Option.some.injEq, Prod.mk.injEq, Except.error.injEq] at h
                obtain ⟨-, he⟩ := h
                subst he
                simp [heq]
            · next d heq =>
                simp only [Option.some.injEq, Prod.mk.injEq, Except.error.injEq] at h
                obtain ⟨-, he⟩ := h
                subst he
                simp [heq]

/-- C4 witness: calling a zero-parameter function whose body is `return;`
yields the success value Nil with the caller's environment restored. -/
theorem function_call_intercepts_return_witness :
    run 3 initState
        (.callFn (Function.Lox 0 [] [Stmt.Return retKwT none] 0) [] rpT)
      = some ({ arena := [Frame.mk [("clock", Literal.Function (Function.Native 0 0))] none,
                          Frame.mk [] (some 0)],
                globals := 0, environment := 0, output := [] }, .ok Literal.Nil) :=
  (function_call_intercepts_return.1 2 initState 0 [] [Stmt.Return retKwT none] 0 [] rpT
      []
      { arena := [Frame.mk [("clock", Literal.Function (Function.Native 0 0))] none,
                  Frame.mk [] (some 0)],
        globals := 0, environment := 1, output := [] }
      { token := retKwT, kind := LoxErrorType.Return Literal.Nil, line := 1 }
      rfl rfl).1 Literal.Nil rfl

/-- C5 counterexample: parsing `1 = 2;` yields the syntax error
`Invalid assignment target.` attributed to the `2` token — the last token
of the right-hand value — not to the `=` token as the claim states. -/
theorem assignment_error_not_at_equals :
    parsedErrors (parseTokens 100 toksBadAssign)
      = some [LoxError.parse_error (numT 2) "Invalid assignment target."]
  ∧ (numT 2).token_type ≠ TokenType.Equal :=
  ⟨rfl, by decide⟩

/-- C5 (amended): when the captured left-hand parse of `Parser::assignment`
is any shape other than a bare variable reference and an `=` follows, the
parser parses the right-hand value and then reports the syntax error
`Invalid assignment target.` attributed to `previous()` — the last token
consumed while parsing that value — and only a bare `Expr::Var` on the left
yields an `Assign` node. -/
theorem assignment_error_at_last_value_token :
    (∀ (n : Nat) (s : PState) (e : Expr) (s1 : PState),
       pstep n s .orE = some (.ok (.exprV e) s1) →
       pstep (n + 1) s .assignment = pstep n s1 (.assignTail (.ok e))) ∧
    (∀ (n : Nat) (s s1 : PState) (res : Except LoxError Expr) (value : Expr)
       (s2 : PState) (prev : Token),
       matchT s TokenType.Equal = some (true, s1) →
       pstep n s1 .assignment = some (.ok (.exprV value) s2) →
       resIsVar res = false →
       previousT s2 = some prev →
       pstep (n + 1) s (.assignTail res)
         = some (.err (LoxError.parse_error prev "Invalid assignment target.") s2)) := by
  constructor
  · intro n s e s1 h
    simp only [pstep, h]
  · intro n s s1 res value s2 prev hm ha hv hp
    rcases res with e1 | ex
    · simp only [pstep, hm, ha, hp]
    · cases ex
      · simp only [pstep, hm, ha, hp]
      · simp only [pstep, hm, ha, hp]
      · simp only [pstep, hm, ha, hp]
      · simp only [pstep, hm, ha, hp]
      · simp only [pstep, hm, ha, hp]
      · simp only [pstep, hm, ha, hp]
      · simp only [pstep, hm, ha, hp]
      · simp [resIsVar] at hv

/-- C5 witness: instantiating the amended statement on the token stream of
`1 = 2;` at the point just after the left-hand `1` was parsed. -/
theorem assignment_error_at_last_value_token_witness :
    pstep 21 { tokens := toksBadAssign, current := 1 }
        (.assignTail (.ok (Expr.Literal (Literal.Number 1))))
      = some (.err (LoxError.parse_error (numT 2) "Invalid assignment target.")
          { tokens := toksBadAssign, current := 3 }) :=
  assignment_error_at_last_value_token.2 20
    { tokens := toksBadAssign, current := 1 }
    { tokens := toksBadAssign, current := 2 }
    (.ok (Expr.Literal (Literal.Number 1)))
    (Expr.Literal (Literal.Number 2))
    { tokens := toksBadAssign, current := 3 }
    (numT 2) rfl rfl rfl rfl

set_option maxRecDepth 100000 in
/-- C6: the parameter-count check fires after the 255th parameter is pushed,
so a declaration with exactly 255 parameters is rejected with
`A function cannot have more than 255 parameters.` (attributed to the 255th
parameter token), while 254 parameters are accepted — the effective limit is
254, not 255. -/
theorem param_limit_is_254 :
    parsedErrors (parseTokens 2000 (funDeclToks 254))
      = some [LoxError.parse_error (idT "p")
          "A function cannot have more than 255 parameters."]
  ∧ parsedProgram (parseTokens 2000 (funDeclToks 253))
      = some [Stmt.Function (idT "f") (List.replicate 254 (idT "p")) []] :=
  ⟨rfl, rfl⟩

/-- C7: after each syntax error `Parser::parse` resynchronizes twice (once
inside `declaration`, once in the `parse` loop), skipping one whole
statement past the boundary: `var 1; var 2; var 3;` reports only the errors
at `1` and `3` — the malformed `var 2;` is silently skipped — while the
claim's particular scenario of two malformed statements separated by valid
ones does report exactly two errors. -/
theorem parse_skips_statement_after_error :
    parsedErrors (parseTokens 100 toksThreeBad)
      = some [LoxError.parse_error (numT 1) "Expected variable name.",
              LoxError.parse_error (numT 3) "Expected variable name."]
  ∧ parsedErrors (parseTokens 200 toksTwoBadSeparated)
      = some [LoxError.parse_error (numT 1) "Expected variable name.",
              LoxError.parse_error (numT 2) "Expected variable name."] :=
  ⟨rfl, rfl⟩

/-- C8: executing a `Block` statement leaves the interpreter's
current-environment pointer exactly as it was, whatever the outcome
(success or error) of the inner statement sequence. -/
theorem block_restores_environment
    (n : Nat) (s : InterpState) (stmts : List Stmt) (s' : InterpState)
    (r : Except LoxError Literal)
    (h : run n s (.stmt (Stmt.Block stmts)) = some (s', r)) :
    s'.environment = s.environment := by
  cases n with
  | zero => simp [run] at h
  | succ m =>
    simp only [run] at h
    split at h
    · exact absurd h (by simp)
    · simp only [Option.some.injEq, Prod.mk.injEq] at h
      obtain ⟨h1, _⟩ := h
      subst h1
      rfl
    · simp only [Option.some.injEq, Prod.mk.injEq] at h
      obtain ⟨h1, _⟩ := h
      subst h1
      rfl

/-- C8 witness: a block containing one print statement restores the
environment pointer of the initial state. -/
theorem block_restores_environment_witness :
    InterpState.environment
        { arena := [Frame.mk [("clock", Literal.Function (Function.Native 0 0))] none,
                    Frame.mk [] (some 0)],
          globals := 0, environment := 0, output := [Literal.Number 7] }
      = initState.environment :=
  block_restores_environment 5 initState [Stmt.Print (Expr.Literal (Literal.Number 7))]
    { arena := [Frame.mk [("clock", Literal.Function (Function.Native 0 0))] none,
                Frame.mk [] (some 0)],
      globals := 0, environment := 0, output := [Literal.Number 7] }
    (.ok Literal.Nil) rfl

/-- C9: `a or b` returns the value of `a` itself (uncoerced) with `b`
unevaluated when `a` is truthy, and otherwise evaluates to exactly the run
of `b` from the post-`a` state; `a and b` symmetrically returns `a`'s value
when falsy and otherwise the run of `b`. -/
theorem logical_short_circuit
    (n : Nat) (s s1 : InterpState) (a b : Expr) (op : Token) (va : Literal)
    (h : run n s (.expr a) = some (s1, .ok va)) :
    (op.token_type = TokenType.Or → va.is_truthy = true →
       run (n + 1) s (.expr (Expr.Logical a op b)) = some (s1, .ok va)) ∧
    (op.token_type = TokenType.Or → va.is_truthy = false →
       run (n + 1) s (.expr (Expr.Logical a op b)) = run n s1 (.expr b)) ∧
    (op.token_type = TokenType.And → va.is_truthy = false →
       run (n + 1) s (.expr (Expr.Logical a op b)) = some (s1, .ok va)) ∧
    (op.token_type = TokenType.And → va.is_truthy = true →
       run (n + 1) s (.expr (Expr.Logical a op b)) = run n s1 (.expr b)) := by
  refine ⟨?_, ?_, ?_, ?_⟩ <;> intro hop htr <;>
    simp only [run, h, hop, htr] <;> rfl

/-- C9 witness: `1 or nil` evaluates to the Number 1 itself. -/
theorem logical_short_circuit_witness :
    run 2 initState
        (.expr (Expr.Logical (Expr.Literal (Literal.Number 1)) orKwT
          (Expr.Literal Literal.Nil)))
      = some (initState, .ok (Literal.Number 1)) :=
  (logical_short_circuit 1 initState initState (Expr.Literal (Literal.Number 1))
      (Expr.Literal Literal.Nil) orKwT (Literal.Number 1) rfl).1 rfl rfl

/-- C10: `Parser::parse` is not total: on the token stream of the program
`+` (a first token that cannot begin a declaration or expression), `primary`
reaches its error arm with `current == 0` and `previous()` panics on the
`usize` underflow, modelled as the `crash` outcome — no statement list or
error list is returned. -/
theorem parse_crashes_on_leading_operator :
    parseTokens 50 [plusT, eofT] = some PRes.crash :=
  rfl

end Lox
